import Mathlib

/-!
Shallow embedding of `src/bot.py` (a Telegram shop bot: per-user cart,
multi-step checkout conversation, WebApp order submission) together with
proofs about the cart engine, the checkout dialogue and the two order
construction paths.

Numeric model: Python floats are modelled as rationals (`ℚ`); `round(x, 2)`
and the `f"{v:.2f}"` formatting both round half-to-even, modelled by
`roundHalfEven`.  Python `int` is modelled as `ℤ`.
-/

namespace WebAppTelegram

/-- Round a rational to the nearest integer, ties to even
(model of Python's built-in `round`). -/
def roundHalfEven (q : ℚ) : ℤ :=
  let f : ℤ := ⌊q⌋
  let r : ℚ := q - (f : ℚ)
  if r < 1/2 then f
  else if 1/2 < r then f + 1
  else if f % 2 = 0 then f else f + 1

/-- Model of Python `round(x, 2)`: round to two decimal places. -/
def round2 (q : ℚ) : ℚ := (roundHalfEven (q * 100) : ℚ) / 100

/-- `format_price` from `bot.py`: `f"{float(v):.2f} €".replace(".", ",")`.
The two-decimal fixed-point rendering is modelled through `roundHalfEven`
on cents. -/
def format_price (v : ℚ) : String :=
  let c : ℤ := roundHalfEven (v * 100)
  let sign := if c < 0 then "-" else ""
  let n : ℕ := c.natAbs
  sign ++ toString (n / 100) ++ "," ++
    (if n % 100 < 10 then "0" else "") ++ toString (n % 100) ++ " €"

/-- A catalog product (an entry of `products.json` after the `str(p["id"])`
coercion in `bot.py`). -/
structure Product where
  id : String
  name : String
  price : ℚ
  image : Option String := none
  description : Option String := none
  variants : List String := []
deriving Repr, DecidableEq

/-- A cart line item, as built by `add_item_to_cart` in `bot.py`. -/
structure CartItem where
  key : String
  id : String
  name : String
  price : ℚ
  image : Option String := none
  variant : Option String := none
  qty : ℤ
deriving Repr, DecidableEq

/-- `item_key` from `bot.py`: `f"{pid}::{variant or ''}"` (both a missing
variant and the empty-string variant map to the empty suffix). -/
def item_key (pid : String) (variant : Option String) : String :=
  pid ++ "::" ++ variant.getD ""

/-- `get_cart_total` from `bot.py`: `sum(float(i["price"]) * int(i["qty"]))`. -/
def get_cart_total (cart : List CartItem) : ℚ :=
  (cart.map (fun i => i.price * (i.qty : ℚ))).sum

/-- The `for it in cart: ... break / else: append` loop of
`add_item_to_cart`: bump the quantity of the first item whose key matches
`item.key`, or append `item` at the end when no key matches. -/
def addQty (item : CartItem) : List CartItem → List CartItem
  | [] => [item]
  | it :: rest =>
    if it.key == item.key then { it with qty := it.qty + item.qty } :: rest
    else it :: addQty item rest

/-- `add_item_to_cart` from `bot.py` (the cart is passed explicitly instead
of living in `context.user_data`). -/
def add_item_to_cart (cart : List CartItem) (product : Product)
    (variant : Option String) (qty : ℤ) : List CartItem :=
  addQty
    { key := item_key product.id variant
      id := product.id
      name := product.name
      price := product.price
      image := product.image
      variant := variant
      qty := qty } cart

/-- `remove_item_from_cart` from `bot.py`:
`[it for it in cart if it.get("key") != key]`. -/
def remove_item_from_cart (cart : List CartItem) (key : String) : List CartItem :=
  cart.filter (fun it => it.key != key)

/-- `display_label` from `bot.py`: `f"{name} ({v})" if v else name`
(a `None` or empty-string variant is falsy in Python). -/
def display_label (i : CartItem) : String :=
  let v := i.variant.getD ""
  if v = "" then i.name else i.name ++ " (" ++ v ++ ")"

/-- The `", ".join(f"{display_label(i)} x{i['qty']}" ...)` recap text built
in `confirm_or_cancel` before the cart is cleared. -/
def items_txt (cart : List CartItem) : String :=
  String.intercalate ", " (cart.map (fun i => display_label i ++ " x" ++ toString i.qty))

/-- The checkout conversation state (`ASK_NAME .. ASK_CONFIRM` in `bot.py`;
`IDLE` stands for "no active conversation", i.e. entry points are live and
a handler returning `ConversationHandler.END` lands here). -/
inductive ConvState
  | IDLE
  | ASK_NAME
  | ASK_ADDRESS
  | ASK_PHONE
  | ASK_CONFIRM
deriving Repr, DecidableEq

/-- The in-progress `context.user_data["order"]` dict.  Each field is an
`Option` because the corresponding dict key may be absent. -/
structure OrderDict where
  cart : Option (List CartItem) := none
  customer_name : Option String := none
  address : Option String := none
  phone : Option String := none
deriving Repr, DecidableEq

/-- Per-user session: `context.user_data` (cart + in-progress order draft)
together with the conversation state the dispatcher keeps for this user.
A missing `"cart"` key and an empty cart are observationally identical
(`ensure_cart` creates the empty list on first access), so the cart is a
plain list.

The live Python dict stores `order["cart"]` as an alias of the live cart
list; here it stores the cart's value at assignment time.  No code path
reads `order["cart"]` between its assignment in `start_checkout_cb` and its
overwrite in `confirm_or_cancel`, so the two semantics agree on every
observable of the handlers modelled here. -/
structure Session where
  cart : List CartItem := []
  order : Option OrderDict := none
  conv : ConvState := .IDLE
deriving Repr, DecidableEq

/-- A finalized order as written by `save_order` on the conversation path
(`source = "bot"`).  The `created_at` wall-clock field is outside the
model. -/
structure Order where
  customer_name : Option String := none
  address : Option String := none
  phone : Option String := none
  cart : List CartItem := []
  total : ℚ := 0
  total_formatted : String := ""
  user_id : ℤ := 0
  username : Option String := none
  source : String := ""
deriving Repr, DecidableEq

/-- Observable side effects of the confirm action, in program order. -/
inductive Effect
  | saveOrder (o : Order)
  | saveFailed
  | notifyAdmin (o : Order) (txt : String)
  | notifyFailed
  | clearCart
deriving Repr, DecidableEq

/-- `start_checkout_cb` from `bot.py`.  Returns the new session and whether
the "Votre panier est vide." alert was shown.  On an empty cart the handler
answers with the alert and returns `ConversationHandler.END` without
touching any state; otherwise it creates the draft `{"cart": cart}` and
moves to `ASK_NAME`. -/
def start_checkout_cb (s : Session) : Session × Bool :=
  if s.cart.isEmpty then (s, true)
  else ({ s with order := some { cart := some s.cart }, conv := .ASK_NAME }, false)

/-- `ask_name` from `bot.py`: `setdefault("order", {})`, store the stripped
text as `customer_name`, go to `ASK_ADDRESS`. -/
def ask_name (s : Session) (text : String) : Session :=
  let o := s.order.getD {}
  { s with order := some { o with customer_name := some text.trim }, conv := .ASK_ADDRESS }

/-- `ask_address` from `bot.py`: store the stripped text as `address`, go to
`ASK_PHONE`.  A missing draft would raise `KeyError` and leave the state
unchanged (unreachable in the dispatched flow). -/
def ask_address (s : Session) (text : String) : Session :=
  match s.order with
  | some o => { s with order := some { o with address := some text.trim }, conv := .ASK_PHONE }
  | none => s

/-- `ask_phone` from `bot.py`: store the stripped text as `phone`, render the
recap (pure output, no state effect) and go to `ASK_CONFIRM`. -/
def ask_phone (s : Session) (text : String) : Session :=
  match s.order with
  | some o => { s with order := some { o with phone := some text.trim }, conv := .ASK_CONFIRM }
  | none => s

/-- The order dict as completed inside the `confirm_order` branch of
`confirm_or_cancel`: the item list is re-read from the live cart
(`cart = ensure_cart(context)` and `order["cart"] = cart`), the total is
`round(get_cart_total(cart), 2)` and `total_formatted` formats the already
rounded total. -/
def build_bot_order (s : Session) (uid : ℤ) (username : Option String) : Order :=
  let o := s.order.getD {}
  { customer_name := o.customer_name
    address := o.address
    phone := o.phone
    cart := s.cart
    total := round2 (get_cart_total s.cart)
    total_formatted := format_price (round2 (get_cart_total s.cart))
    user_id := uid
    username := username.map (fun u => "@" ++ u)
    source := "bot" }

/-- `confirm_or_cancel` from `bot.py`.  `saveOk` is whether the
`save_order` append succeeds (a raise aborts the handler, so the session —
cart, draft and conversation state — is left as it was), `adminConfigured`
is whether `ADMIN_CHAT_ID` is set, `notifyOk` whether the admin message
send succeeds (its failure is swallowed by `except Exception: pass`).
Returns the new session and the effect trace in program order. -/
def confirm_or_cancel (s : Session) (data : String) (uid : ℤ) (username : Option String)
    (saveOk adminConfigured notifyOk : Bool) : Session × List Effect :=
  if data = "cancel_order" then
    ({ s with order := none, conv := .IDLE }, [])
  else if data = "confirm_order" then
    let o := build_bot_order s uid username
    let txt := items_txt s.cart
    if saveOk then
      ({ s with cart := [], order := none, conv := .IDLE },
        Effect.saveOrder o ::
          (if adminConfigured then
            [if notifyOk then Effect.notifyAdmin o txt else Effect.notifyFailed]
          else []) ++ [Effect.clearCart])
    else (s, [Effect.saveFailed])
  else (s, [])

/-- `PRODUCT_INDEX` from `bot.py`: the dict comprehension
`{p["id"]: p for p in PRODUCTS}` (a later entry with the same id wins). -/
def PRODUCT_INDEX (products : List Product) : String → Option Product :=
  products.foldl (fun f p => fun k => if k = p.id then some p else f k) (fun _ => none)

/-- `product_by_id` from `bot.py`: `PRODUCT_INDEX.get(str(pid))`. -/
def product_by_id (products : List Product) (pid : String) : Option Product :=
  PRODUCT_INDEX products pid

/-- User-visible outcome of the add-to-cart / choose-variant callbacks. -/
inductive CbResult
  | notFound
  | variantPrompt (variants : List String)
  | added
  | addedVariant (v : String)
  | invalidVariant
deriving Repr, DecidableEq

/-- `add_to_cart_cb` from `bot.py` (callback data `add_{pid}`, already
parsed): unknown product → alert; product with a non-empty variant list →
render the variant keyboard and return without touching the cart;
otherwise `add_item_to_cart(prod, variant=None, qty=1)`. -/
def add_to_cart_cb (products : List Product) (s : Session) (pid : String) :
    Session × CbResult :=
  match product_by_id products pid with
  | none => (s, .notFound)
  | some prod =>
    if prod.variants ≠ [] then (s, .variantPrompt prod.variants)
    else ({ s with cart := add_item_to_cart s.cart prod none 1 }, .added)

/-- `choose_variant_cb` from `bot.py` (callback data `choose_{pid}_{v}`,
already parsed): unknown product → alert; `variant not in variants` →
"Taille invalide" alert with no state change; else
`add_item_to_cart(prod, variant, qty=1)`. -/
def choose_variant_cb (products : List Product) (s : Session) (pid v : String) :
    Session × CbResult :=
  match product_by_id products pid with
  | none => (s, .notFound)
  | some prod =>
    if v ∈ prod.variants then
      ({ s with cart := add_item_to_cart s.cart prod (some v) 1 }, .addedVariant v)
    else (s, .invalidVariant)

/-- One line item of the WebApp "place order" JSON payload, after the field
coercions `str(i["id"])`, `float(i["price"])`, `int(i["qty"])` applied in
`handle_webapp_data`. -/
structure WebAppItem where
  id : String
  name : String
  price : ℚ
  qty : ℤ
  variant : Option String := none
deriving Repr, DecidableEq

/-- The parsed `web_app_data` JSON payload. -/
structure WebAppPayload where
  kind : String
  cart : List WebAppItem := []
  customer_name : Option String := none
  address : Option String := none
  phone : Option String := none
deriving Repr, DecidableEq

/-- An item of the `order["cart"]` array built by `handle_webapp_data`
(unlike the conversation path it carries no `key` and no `image` field). -/
structure WebappOrderItem where
  id : String
  name : String
  price : ℚ
  qty : ℤ
  variant : Option String := none
deriving Repr, DecidableEq

/-- A finalized order as written by `save_order` on the WebApp path
(`source = "webapp"`). -/
structure WebappOrder where
  customer_name : Option String := none
  address : Option String := none
  phone : Option String := none
  cart : List WebappOrderItem := []
  total : ℚ := 0
  total_formatted : String := ""
  user_id : ℤ := 0
  username : Option String := none
  source : String := ""
deriving Repr, DecidableEq

/-- The `total = sum(float(i["price"]) * int(i["qty"]) for i in cart)` line
of `handle_webapp_data`, over the submitted payload items. -/
def webapp_cart_total (cart : List WebAppItem) : ℚ :=
  (cart.map (fun i => i.price * (i.qty : ℚ))).sum

/-- The order dict built by `handle_webapp_data`: the total is rounded to 2
decimals but `total_formatted` formats the unrounded sum
(`format_price(total)` before the `round`). -/
def build_webapp_order (payload : WebAppPayload) (uid : ℤ) (username : Option String) :
    WebappOrder :=
  let total := webapp_cart_total payload.cart
  { customer_name := payload.customer_name
    address := payload.address
    phone := payload.phone
    cart := payload.cart.map (fun i =>
      { id := i.id, name := i.name, price := i.price, qty := i.qty, variant := i.variant })
    total := round2 total
    total_formatted := format_price total
    user_id := uid
    username := username.map (fun u => "@" ++ u)
    source := "webapp" }

/-- The user-visible reply of `handle_webapp_data`. -/
inductive WebReply
  | unsupported
  | success
  | error
deriving Repr, DecidableEq

/-- `handle_webapp_data` from `bot.py`: discriminator check
(`kind != "order"` → "Type de donnée non supporté."), then build the order
from the payload, `save_order` it (`saveOk` is whether the append succeeds;
a raise is caught by the surrounding `except` which replies with the error
text), best-effort admin notify, success reply.  The session — in
particular the live cart — is never touched. -/
def handle_webapp_data (s : Session) (payload : WebAppPayload) (uid : ℤ)
    (username : Option String) (saveOk : Bool) : Session × Option WebappOrder × WebReply :=
  if payload.kind ≠ "order" then (s, none, .unsupported)
  else
    let order := build_webapp_order payload uid username
    if saveOk then (s, some order, .success)
    else (s, none, .error)

/-- The kind of the message currently on screen (`query_msg.photo` non-empty
means `photo`). -/
inductive MsgKind
  | text
  | photo
deriving Repr, DecidableEq

/-- Outbound transport calls made by a render, in program order. -/
inductive RenderEffect
  | editMessage
  | editRejected
  | deleteMessage
  | deleteRejected
  | sendMessage
deriving Repr, DecidableEq

/-- Effect trace of `send_product_list` from `bot.py` against a previous
on-screen message of kind `prev` (`none`: no callback message, plain
`reply_text`).  The target kind of the catalog list is always `text`.
`editOk` / `deleteOk` are whether the transport accepts the edit / delete;
a `BadRequest` from either call inside the `try` lands in the `except`
branch, which sends a fresh message. -/
def send_product_list (prev : Option MsgKind) (editOk deleteOk : Bool) :
    List RenderEffect :=
  match prev with
  | none => [.sendMessage]
  | some .photo =>
    if deleteOk then [.deleteMessage, .sendMessage]
    else [.deleteRejected, .sendMessage]
  | some .text =>
    if editOk then [.editMessage]
    else [.editRejected, .sendMessage]

/-- Effect trace of `send_cart` from `bot.py`: its reconciliation against
the previous message is textually identical to `send_product_list` (only
the rendered body differs). -/
def send_cart (prev : Option MsgKind) (editOk deleteOk : Bool) :
    List RenderEffect :=
  match prev with
  | none => [.sendMessage]
  | some .photo =>
    if deleteOk then [.deleteMessage, .sendMessage]
    else [.deleteRejected, .sendMessage]
  | some .text =>
    if editOk then [.editMessage]
    else [.editRejected, .sendMessage]

/-- How many messages are visible after a render: the previous message
(visible iff `prevVisible`, removed by a successful delete) plus every
newly sent message.  A successful in-place edit keeps the single previous
message. -/
def visibleCount (prevVisible : Bool) (effects : List RenderEffect) : ℕ :=
  let r := effects.foldl
    (fun st e =>
      match e with
      | .deleteMessage => (false, st.2)
      | .sendMessage => (st.1, st.2 + 1)
      | _ => st)
    (prevVisible, 0)
  (if r.1 then 1 else 0) + r.2

/-- Inbound events dispatched by `main()`'s handler registrations.  The
`add_` / `choose_` / `rm_` / `clearcart` callbacks are registered outside
the conversation handler, so they fire in every conversation state; the
conversation entry point (`checkout`) only fires while no conversation is
active; text messages reach the dialogue only in the three ASK states.
`confirmOrder` carries the fate of the `save_order` append and of the
admin notification. -/
inductive Event
  | beginCheckout
  | textInput (t : String)
  | confirmOrder (saveOk adminConfigured notifyOk : Bool)
  | cancelOrder
  | addToCart (pid : String)
  | chooseVariant (pid v : String)
  | removeFromCart (key : String)
  | clearCart
deriving Repr, DecidableEq

/-- One dispatcher step: route an event to its handler as `main()` wires
them, returning the new session and the emitted effects.  `uid` and
`username` of the acting user are fixed to `0` / `none`, which no modelled
claim observes. -/
def step (products : List Product) (s : Session) (e : Event) : Session × List Effect :=
  match e with
  | .beginCheckout =>
    if s.conv = .IDLE then ((start_checkout_cb s).1, []) else (s, [])
  | .textInput t =>
    match s.conv with
    | .ASK_NAME => (ask_name s t, [])
    | .ASK_ADDRESS => (ask_address s t, [])
    | .ASK_PHONE => (ask_phone s t, [])
    | _ => (s, [])
  | .confirmOrder saveOk adminConfigured notifyOk =>
    if s.conv = .ASK_CONFIRM then
      confirm_or_cancel s "confirm_order" 0 none saveOk adminConfigured notifyOk
    else (s, [])
  | .cancelOrder =>
    if s.conv = .ASK_CONFIRM then
      confirm_or_cancel s "cancel_order" 0 none true false true
    else (s, [])
  | .addToCart pid => ((add_to_cart_cb products s pid).1, [])
  | .chooseVariant pid v => ((choose_variant_cb products s pid v).1, [])
  | .removeFromCart key => ({ s with cart := remove_item_from_cart s.cart key }, [])
  | .clearCart => ({ s with cart := [] }, [])

/-- Run a sequence of events from a session, accumulating the effect trace. -/
def run (products : List Product) (s : Session) (es : List Event) :
    Session × List Effect :=
  es.foldl (fun acc e =>
    let r := step products acc.1 e
    (r.1, acc.2 ++ r.2)) (s, [])

/-- The orders appended to `orders.jsonl` along an effect trace. -/
def savedOrders (effects : List Effect) : List Order :=
  effects.filterMap (fun e =>
    match e with
    | .saveOrder o => some o
    | _ => none)

/-- One invocation of `add_item_to_cart(product, variant, qty)` (defaults as
in `bot.py`: no variant, quantity 1). -/
structure AddCall where
  product : Product
  variant : Option String := none
  qty : ℤ := 1
deriving Repr, DecidableEq

/-- The cart key an `add` call targets. -/
def AddCall.targetKey (c : AddCall) : String := item_key c.product.id c.variant

/-- Replay a sequence of `add_item_to_cart` calls on a cart. -/
def addAll (cart : List CartItem) (calls : List AddCall) : List CartItem :=
  calls.foldl (fun c a => add_item_to_cart c a.product a.variant a.qty) cart

/-- Number of cart items carrying a given key. -/
def countKey (cart : List CartItem) (k : String) : ℕ :=
  cart.countP (fun it => it.key == k)

/-- Total quantity the cart holds under a given key. -/
def cartQtyOf (cart : List CartItem) (k : String) : ℤ :=
  ((cart.filter (fun it => it.key == k)).map CartItem.qty).sum

/-- Sum of the `qty` arguments of all calls targeting a given key. -/
def callsQty (calls : List AddCall) (k : String) : ℤ :=
  ((calls.filter (fun c => c.targetKey == k)).map AddCall.qty).sum

/-- Whether some call in the sequence targets the given key. -/
def callsHaveKey (calls : List AddCall) (k : String) : Bool :=
  calls.any (fun c => c.targetKey == k)

/-! Concrete fixtures used by witnesses and counterexamples. -/

/-- A variant-free product. -/
def prodA : Product := { id := "1", name := "Tshirt", price := 10 }

/-- A product with variants. -/
def prodB : Product := { id := "2", name := "Hoodie", price := 25, variants := ["S", "M", "L"] }

/-- The cart item `add_item_to_cart` creates for `prodA` with quantity 1. -/
def itemA1 : CartItem := { key := "1::", id := "1", name := "Tshirt", price := 10, qty := 1 }

/-- A fresh session: empty cart, no draft, no conversation. -/
def emptySession : Session := {}

/-- A session sitting at the confirmation step with a one-item cart. -/
def sessionAtConfirm : Session :=
  { cart := [itemA1]
    order := some { cart := some [itemA1], customer_name := some "Alice",
                    address := some "12 rue X", phone := some "0600000000" }
    conv := .ASK_CONFIRM }

/-- A well-formed WebApp order payload. -/
def payloadEx : WebAppPayload :=
  { kind := "order"
    cart := [{ id := "1", name := "Tshirt", price := 10, qty := 1 }]
    customer_name := some "Alice"
    address := some "12 rue X"
    phone := some "0600000000" }

/-- Two `add` calls for the same variant-free product. -/
def callsEx : List AddCall := [{ product := prodA }, { product := prodA }]

/-- A session whose cart holds one unit of `prodA`, ready to begin checkout. -/
def s0C1 : Session := { cart := [itemA1] }

/-- Begin checkout, mutate the live cart mid-dialogue (a second unit of
`prodA` is added), complete the three text steps, then confirm with a
succeeding order append. -/
def evtsC1 : List Event :=
  [.beginCheckout, .addToCart "1", .textInput "Alice", .textInput "12 rue X",
   .textInput "0600000000", .confirmOrder true false true]

/-! Theorems. -/

/-- C5: beginning checkout with an empty cart leaves the session (cart,
draft, dialogue state) unchanged — in particular a session that was `IDLE`
stays `IDLE` and no CheckoutDraft is created — and emits the user-visible
"Votre panier est vide." alert. -/
theorem start_checkout_empty_cart (s : Session) (h : s.cart = []) :
    (start_checkout_cb s).1 = s ∧ (start_checkout_cb s).2 = true := by
  simp [start_checkout_cb, h]

theorem start_checkout_empty_cart_witness :
    (start_checkout_cb emptySession).1 = emptySession
    ∧ (start_checkout_cb emptySession).2 = true :=
  start_checkout_empty_cart emptySession rfl

/-- C9: `remove_item_from_cart` deletes exactly the items carrying the
given key (membership characterisation) and is idempotent: removing the
same key twice gives the same cart as removing it once. -/
theorem remove_item_correct (cart : List CartItem) (key : String) :
    remove_item_from_cart (remove_item_from_cart cart key) key
      = remove_item_from_cart cart key
    ∧ (∀ it ∈ remove_item_from_cart cart key, it.key ≠ key)
    ∧ (∀ it, it ∈ remove_item_from_cart cart key ↔ it ∈ cart ∧ it.key ≠ key) := by
  refine ⟨?_, ?_, ?_⟩
  · simp [remove_item_from_cart, List.filter_filter]
  · intro it h
    simp [remove_item_from_cart, List.mem_filter] at h
    exact h.2
  · intro it
    simp [remove_item_from_cart, List.mem_filter]

theorem remove_item_correct_witness :
    remove_item_from_cart (remove_item_from_cart [itemA1] "1::") "1::"
      = remove_item_from_cart [itemA1] "1::"
    ∧ remove_item_from_cart [itemA1] "1::" = [] :=
  ⟨(remove_item_correct [itemA1] "1::").1, by decide⟩

/-- C3: a WebApp submission whose `kind` discriminator is `"order"` leaves
the session (hence the live cart) unchanged, persists the order built from
the submitted payload with `source = "webapp"` (the spec's
embedded-submission source) and a total computed from the submitted line
items, and the persisted order does not depend on the live session at
all. -/
theorem webapp_submission (s : Session) (payload : WebAppPayload) (uid : ℤ)
    (un : Option String) (h : payload.kind = "order") :
    (handle_webapp_data s payload uid un true).1 = s
    ∧ (handle_webapp_data s payload uid un true).2.1
        = some (build_webapp_order payload uid un)
    ∧ (build_webapp_order payload uid un).source = "webapp"
    ∧ (build_webapp_order payload uid un).total = round2 (webapp_cart_total payload.cart)
    ∧ (∀ s' : Session, (handle_webapp_data s' payload uid un true).2.1
        = (handle_webapp_data s payload uid un true).2.1) := by
  refine ⟨?_, ?_, rfl, rfl, ?_⟩ <;> simp [handle_webapp_data, h]

theorem webapp_submission_witness :
    (handle_webapp_data sessionAtConfirm payloadEx 7 (some "alice") true).1
      = sessionAtConfirm
    ∧ (handle_webapp_data sessionAtConfirm payloadEx 7 (some "alice") true).2.1
      = some (build_webapp_order payloadEx 7 (some "alice")) :=
  ⟨(webapp_submission sessionAtConfirm payloadEx 7 (some "alice") rfl).1,
   (webapp_submission sessionAtConfirm payloadEx 7 (some "alice") rfl).2.1⟩

/-- C10: on the same sequence of line items (same unit prices and
quantities, in order) the conversation path and the WebApp path assign the
same order `total`; the conversation path formats the already-rounded
total, while the WebApp path formats the unrounded sum. -/
theorem order_total_paths_agree (s : Session) (payload : WebAppPayload)
    (uid uid' : ℤ) (un un' : Option String)
    (h : s.cart.map (fun i => (i.price, i.qty))
       = payload.cart.map (fun i => (i.price, i.qty))) :
    (build_webapp_order payload uid' un').total = (build_bot_order s uid un).total
    ∧ (build_bot_order s uid un).total_formatted
        = format_price (round2 (get_cart_total s.cart))
    ∧ (build_webapp_order payload uid' un').total_formatted
        = format_price (webapp_cart_total payload.cart) := by
  have htot : get_cart_total s.cart = webapp_cart_total payload.cart := by
    have h1 : s.cart.map (fun i => i.price * (i.qty : ℚ))
        = (s.cart.map (fun i => (i.price, i.qty))).map (fun p => p.1 * (p.2 : ℚ)) := by
      simp [List.map_map]
    have h2 : payload.cart.map (fun i => i.price * (i.qty : ℚ))
        = (payload.cart.map (fun i => (i.price, i.qty))).map (fun p => p.1 * (p.2 : ℚ)) := by
      simp [List.map_map]
    unfold get_cart_total webapp_cart_total
    rw [h1, h2, h]
  exact ⟨by simp [build_webapp_order, build_bot_order, htot], rfl, rfl⟩

theorem order_total_paths_agree_witness :
    (build_webapp_order payloadEx 7 none).total
      = (build_bot_order sessionAtConfirm 0 none).total := by
  have h := order_total_paths_agree sessionAtConfirm payloadEx 0 7 none none ?_
  · exact h.1
  · decide

/-- C7: when the product has a non-empty variant list, the add-to-cart
callback only renders the variant prompt and never mutates the session;
a variant choice outside the product's variant list changes nothing and
surfaces the invalid-variant alert; a valid variant choice performs
`add_item_to_cart` with that variant. -/
theorem variant_guard (products : List Product) (s : Session) (pid v : String)
    (prod : Product) (hp : product_by_id products pid = some prod) :
    (prod.variants ≠ [] → add_to_cart_cb products s pid = (s, .variantPrompt prod.variants))
    ∧ (v ∉ prod.variants → choose_variant_cb products s pid v = (s, .invalidVariant))
    ∧ (v ∈ prod.variants → choose_variant_cb products s pid v
        = ({ s with cart := add_item_to_cart s.cart prod (some v) 1 }, .addedVariant v)) := by
  refine ⟨?_, ?_, ?_⟩ <;> intro h <;>
    simp [add_to_cart_cb, choose_variant_cb, hp, h]

theorem variant_guard_witness :
    add_to_cart_cb [prodA, prodB] emptySession "2"
      = (emptySession, .variantPrompt prodB.variants)
    ∧ choose_variant_cb [prodA, prodB] emptySession "2" "XL"
      = (emptySession, .invalidVariant)
    ∧ choose_variant_cb [prodA, prodB] emptySession "2" "M"
      = ({ emptySession with cart := add_item_to_cart [] prodB (some "M") 1 },
         .addedVariant "M") := by
  have h1 := variant_guard [prodA, prodB] emptySession "2" "XL" prodB (by decide)
  have h2 := variant_guard [prodA, prodB] emptySession "2" "M" prodB (by decide)
  exact ⟨h1.1 (by decide), h1.2.1 (by decide), h2.2.2 (by decide)⟩

/-- C8: rendering the catalog list or the cart view (both of target kind
`text`) against the previous on-screen message deletes a kind-mismatched
(photo) predecessor and sends anew, edits in place on a kind match, and
falls back to sending a new message when the edit is rejected; under the
transport model the spec assumes — an edit is rejected exactly when the
previous message is stale or deleted, and deleting a still-visible message
succeeds — every render leaves exactly one visible message. -/
theorem render_reconciliation (prev : Option MsgKind) (editOk deleteOk prevVisible : Bool)
    (hNone : prev = none → prevVisible = false)
    (hEdit : editOk = true ↔ prevVisible = true)
    (hDel : prevVisible = true → deleteOk = true) :
    (send_product_list (some .photo) editOk deleteOk
        = if deleteOk then [.deleteMessage, .sendMessage]
          else [.deleteRejected, .sendMessage])
    ∧ (send_cart (some .photo) editOk deleteOk
        = if deleteOk then [.deleteMessage, .sendMessage]
          else [.deleteRejected, .sendMessage])
    ∧ (editOk = true → send_product_list (some .text) editOk deleteOk = [.editMessage]
        ∧ send_cart (some .text) editOk deleteOk = [.editMessage])
    ∧ (editOk = false → send_product_list (some .text) editOk deleteOk
          = [.editRejected, .sendMessage]
        ∧ send_cart (some .text) editOk deleteOk = [.editRejected, .sendMessage])
    ∧ visibleCount prevVisible (send_product_list prev editOk deleteOk) = 1
    ∧ visibleCount prevVisible (send_cart prev editOk deleteOk) = 1 := by
  rcases prev with _ | k
  · cases editOk <;> cases deleteOk <;> cases prevVisible <;>
      simp_all [send_product_list, send_cart, visibleCount]
  · cases k <;> cases editOk <;> cases deleteOk <;> cases prevVisible <;>
      simp_all [send_product_list, send_cart, visibleCount]

theorem render_reconciliation_witness :
    visibleCount true (send_product_list (some .photo) true true) = 1
    ∧ visibleCount true (send_cart (some .photo) true true) = 1 :=
  ⟨(render_reconciliation (some .photo) true true true (by decide) (by decide)
      (by decide)).2.2.2.2.1,
   (render_reconciliation (some .photo) true true true (by decide) (by decide)
      (by decide)).2.2.2.2.2⟩

/-- C2: if the `save_order` append raises during the confirm action, the
handler aborts with the session — live cart and checkout draft — exactly
as it was (so confirmation can be retried) and nothing is cleared; when
the append succeeds it is the first effect, strictly before any operator
notification, the cart ends empty, and the cart-clear is the last effect;
a cart-clear occurs only on a successful append. -/
theorem confirm_persistence (s : Session) (uid : ℤ) (un : Option String)
    (adminConfigured notifyOk : Bool) :
    (confirm_or_cancel s "confirm_order" uid un false adminConfigured notifyOk).1 = s
    ∧ (confirm_or_cancel s "confirm_order" uid un false adminConfigured notifyOk).2
        = [Effect.saveFailed]
    ∧ (confirm_or_cancel s "confirm_order" uid un true adminConfigured notifyOk).2.head?
        = some (Effect.saveOrder (build_bot_order s uid un))
    ∧ (confirm_or_cancel s "confirm_order" uid un true adminConfigured notifyOk).2.getLast?
        = some Effect.clearCart
    ∧ (confirm_or_cancel s "confirm_order" uid un true adminConfigured notifyOk).1.cart = []
    ∧ (∀ saveOk : Bool,
        Effect.clearCart
            ∈ (confirm_or_cancel s "confirm_order" uid un saveOk adminConfigured notifyOk).2
          → saveOk = true) := by
  refine ⟨rfl, rfl, ?_, ?_, ?_, ?_⟩
  · cases adminConfigured <;> cases notifyOk <;> rfl
  · cases adminConfigured <;> cases notifyOk <;> rfl
  · rfl
  · intro saveOk hmem
    cases saveOk
    · simp [confirm_or_cancel] at hmem
    · rfl

theorem confirm_persistence_witness :
    (confirm_or_cancel sessionAtConfirm "confirm_order" 0 none false true true).1
      = sessionAtConfirm
    ∧ (confirm_or_cancel sessionAtConfirm "confirm_order" 0 none true true true).1.cart
      = [] :=
  ⟨(confirm_persistence sessionAtConfirm 0 none true true).1,
   (confirm_persistence sessionAtConfirm 0 none true true).2.2.2.2.1⟩

/-- C1 counterexample: start a checkout with one unit of `prodA` in the
cart, add a second unit mid-dialogue, then confirm.  The begin-time
snapshot (both the cart's value at `begin` and the draft's recorded
`cart`) is one unit, but the finalized order's item list is the mutated
live cart with two units — so the order differs from the begin-time
snapshot, refuting the claim. -/
theorem checkout_snapshot_counterexample :
    s0C1.cart = [itemA1]
    ∧ (run [prodA] s0C1 [.beginCheckout]).1.order = some { cart := some [itemA1] }
    ∧ (savedOrders (run [prodA] s0C1 evtsC1).2).map Order.cart
        = [[{ itemA1 with qty := 2 }]]
    ∧ [[{ itemA1 with qty := 2 }]] ≠ [[itemA1]] := by
  refine ⟨rfl, by decide, by decide, by decide⟩

/-- C1 (amended): the order finalized by the confirm action takes its item
list from the live cart at confirm time; the draft's begin-time snapshot
is ignored — replacing it by any other cart value yields the same item
list — and the order handed to the sink is exactly this live-cart order. -/
theorem confirm_finalizes_live_cart (s : Session) (uid : ℤ) (un : Option String)
    (adminConfigured notifyOk : Bool) :
    (build_bot_order s uid un).cart = s.cart
    ∧ (∀ draftCart : List CartItem,
        (build_bot_order
            { s with order := s.order.map (fun o => { o with cart := some draftCart }) }
            uid un).cart = s.cart)
    ∧ (confirm_or_cancel s "confirm_order" uid un true adminConfigured notifyOk).2.head?
        = some (Effect.saveOrder (build_bot_order s uid un)) := by
  refine ⟨rfl, fun _ => rfl, ?_⟩
  cases adminConfigured <;> cases notifyOk <;> rfl

theorem confirm_finalizes_live_cart_witness :
    (build_bot_order sessionAtConfirm 0 none).cart = sessionAtConfirm.cart
    ∧ (build_bot_order
        { sessionAtConfirm with
            order := sessionAtConfirm.order.map (fun o => { o with cart := some [] }) }
        0 none).cart = sessionAtConfirm.cart :=
  ⟨(confirm_finalizes_live_cart sessionAtConfirm 0 none true true).1,
   (confirm_finalizes_live_cart sessionAtConfirm 0 none true true).2.1 []⟩

/-- C6: a full dialogue run that ends in `cancel` — begin, the three text
steps, cancel at `ASK_CONFIRM` — discards the draft, returns to `IDLE`,
and leaves the live cart exactly as it was before `begin` (items and
quantities untouched). -/
theorem cancel_preserves_cart (products : List Product) (s : Session)
    (n a p : String) (h1 : s.conv = .IDLE) (h2 : s.order = none) :
    ((run products s
        [.beginCheckout, .textInput n, .textInput a, .textInput p, .cancelOrder]).1).cart
      = s.cart
    ∧ ((run products s
        [.beginCheckout, .textInput n, .textInput a, .textInput p, .cancelOrder]).1).order
      = none
    ∧ ((run products s
        [.beginCheckout, .textInput n, .textInput a, .textInput p, .cancelOrder]).1).conv
      = .IDLE := by
  rcases hc : s.cart with _ | ⟨hd, tl⟩
  · refine ⟨?_, ?_, ?_⟩ <;>
      simp [run, step, start_checkout_cb, ask_name, ask_address, ask_phone,
        confirm_or_cancel, h1, h2, hc]
  · refine ⟨?_, ?_, ?_⟩ <;>
      simp [run, step, start_checkout_cb, ask_name, ask_address, ask_phone,
        confirm_or_cancel, h1, h2, hc]

theorem cancel_preserves_cart_witness :
    ((run [] s0C1
        [.beginCheckout, .textInput "Alice", .textInput "12 rue X",
         .textInput "0600000000", .cancelOrder]).1).cart = s0C1.cart
    ∧ ((run [] s0C1
        [.beginCheckout, .textInput "Alice", .textInput "12 rue X",
         .textInput "0600000000", .cancelOrder]).1).order = none :=
  ⟨(cancel_preserves_cart [] s0C1 "Alice" "12 rue X" "0600000000" rfl rfl).1,
   (cancel_preserves_cart [] s0C1 "Alice" "12 rue X" "0600000000" rfl rfl).2.1⟩

/-! Cart accounting lemmas for the add/merge invariant. -/

theorem countKey_cons (hd : CartItem) (tl : List CartItem) (k : String) :
    countKey (hd :: tl) k = countKey tl k + (if hd.key == k then 1 else 0) := by
  simp [countKey, List.countP_cons]

theorem cartQtyOf_cons (hd : CartItem) (tl : List CartItem) (k : String) :
    cartQtyOf (hd :: tl) k = cartQtyOf tl k + (if hd.key == k then hd.qty else 0) := by
  by_cases h : hd.key = k <;> simp [cartQtyOf, List.filter_cons, h] <;> omega

theorem any_key_iff (cart : List CartItem) (K : String) :
    cart.any (fun it => it.key == K) = true ↔ 0 < countKey cart K := by
  simp [countKey, List.countP_pos, List.any_eq_true]

theorem addQty_of_not_mem (item : CartItem) (cart : List CartItem)
    (h : cart.any (fun it => it.key == item.key) = false) :
    addQty item cart = cart ++ [item] := by
  induction cart with
  | nil => rfl
  | cons hd tl ih =>
    simp only [List.any_cons, Bool.or_eq_false_iff] at h
    simp [addQty, h.1, ih h.2]

theorem countKey_addQty_of_mem (item : CartItem) (cart : List CartItem) (k : String)
    (h : cart.any (fun it => it.key == item.key) = true) :
    countKey (addQty item cart) k = countKey cart k := by
  induction cart with
  | nil => simp at h
  | cons hd tl ih =>
    by_cases hhd : hd.key = item.key
    · simp [addQty, hhd, countKey_cons]
    · simp only [List.any_cons] at h
      have h' : tl.any (fun it => it.key == item.key) = true := by
        rcases Bool.or_eq_true_iff.1 h with h1 | h1
        · exact absurd (by simpa using h1) hhd
        · exact h1
      simp [addQty, hhd, countKey_cons, ih h']

theorem cartQtyOf_addQty (item : CartItem) (cart : List CartItem) (k : String) :
    cartQtyOf (addQty item cart) k
      = cartQtyOf cart k + (if item.key == k then item.qty else 0) := by
  induction cart with
  | nil => by_cases h : item.key = k <;> simp [addQty, cartQtyOf, h]
  | cons hd tl ih =>
    by_cases hhd : hd.key = item.key
    · by_cases hk : item.key = k <;>
        simp [addQty, hhd, cartQtyOf_cons, hk] <;> omega
    · simp [addQty, hhd, cartQtyOf_cons, ih] <;> omega

theorem addQty_qty_pos (item : CartItem) (cart : List CartItem)
    (hcart : ∀ it ∈ cart, 1 ≤ it.qty) (hitem : 1 ≤ item.qty) :
    ∀ it ∈ addQty item cart, 1 ≤ it.qty := by
  induction cart with
  | nil => simpa [addQty] using hitem
  | cons hd tl ih =>
    by_cases hhd : hd.key = item.key
    · intro it hit
      simp only [addQty, hhd] at hit
      simp at hit
      rcases hit with rfl | hit
      · have := hcart hd (by simp)
        simp only []
        omega
      · exact hcart it (by simp [hit])
    · intro it hit
      simp only [addQty] at hit
      rw [if_neg (by simpa using hhd)] at hit
      rcases List.mem_cons.1 hit with rfl | hit
      · exact hcart it (by simp)
      · exact ih (fun x hx => hcart x (by simp [hx])) it hit

theorem callsQty_cons (c : AddCall) (cs : List AddCall) (k : String) :
    callsQty (c :: cs) k = (if c.targetKey == k then c.qty else 0) + callsQty cs k := by
  by_cases h : c.targetKey = k <;> simp [callsQty, List.filter_cons, h]

theorem countKey_addAll (calls : List AddCall) :
    ∀ (cart : List CartItem) (k : String),
      countKey (addAll cart calls) k
        = if 0 < countKey cart k then countKey cart k
          else if callsHaveKey calls k then 1 else 0 := by
  induction calls with
  | nil =>
    intro cart k
    by_cases h : 0 < countKey cart k <;> simp [addAll, callsHaveKey, h] <;> omega
  | cons c cs ih =>
    intro cart k
    have hstep : addAll cart (c :: cs)
        = addAll (add_item_to_cart cart c.product c.variant c.qty) cs := rfl
    rw [hstep, ih]
    rcases hmem : cart.any (fun it => it.key == c.targetKey) with _ | _
    · -- no existing item with the call's key: the item is appended
      have happ : add_item_to_cart cart c.product c.variant c.qty
          = cart ++
            [{ key := item_key c.product.id c.variant, id := c.product.id,
               name := c.product.name, price := c.product.price,
               image := c.product.image, variant := c.variant, qty := c.qty }] :=
        addQty_of_not_mem _ cart hmem
      by_cases hKk : c.targetKey = k
      · have hzero : countKey cart k = 0 := by
          have := (any_key_iff cart c.targetKey).not
          rw [hKk] at hmem
          have h0 : ¬ (0 < countKey cart k) := by
            intro hpos
            rw [← hKk] at hpos
            have := (any_key_iff cart c.targetKey).2 hpos
            rw [hKk] at this
            simp [hmem] at this
          omega
        have hone : countKey (add_item_to_cart cart c.product c.variant c.qty) k = 1 := by
          rw [happ]
          have hbeq : (item_key c.product.id c.variant == k) = true := by
            simpa [AddCall.targetKey] using hKk
          have h0 : List.countP (fun it => it.key == k) cart = 0 := by
            simpa [countKey] using hzero
          simp [countKey, List.countP_append, List.countP_cons, hbeq, h0]
        rw [hone]
        have hkey : callsHaveKey (c :: cs) k = true := by
          simp [callsHaveKey, List.any_cons]
          exact Or.inl (by simpa [AddCall.targetKey] using hKk)
        simp [hzero, hkey]
      · have hsame : countKey (add_item_to_cart cart c.product c.variant c.qty) k
            = countKey cart k := by
          rw [happ]
          have : (item_key c.product.id c.variant == k) = false := by
            simpa [AddCall.targetKey] using hKk
          simp [countKey, List.countP_append, List.countP_cons, this]
        rw [hsame]
        have hkey : callsHaveKey (c :: cs) k = callsHaveKey cs k := by
          have : (c.targetKey == k) = false := by simpa using hKk
          simp [callsHaveKey, List.any_cons, this]
        rw [hkey]
    · -- an item with the call's key exists: counts are unchanged
      have hsame : countKey (add_item_to_cart cart c.product c.variant c.qty) k
          = countKey cart k :=
        countKey_addQty_of_mem _ cart k hmem
      rw [hsame]
      by_cases hKk : c.targetKey = k
      · have hpos : 0 < countKey cart k := by
          rw [← hKk]
          exact (any_key_iff cart c.targetKey).1 hmem
        simp [hpos]
      · have hkey : callsHaveKey (c :: cs) k = callsHaveKey cs k := by
          have : (c.targetKey == k) = false := by simpa using hKk
          simp [callsHaveKey, List.any_cons, this]
        rw [hkey]

theorem cartQtyOf_addAll (calls : List AddCall) :
    ∀ (cart : List CartItem) (k : String),
      cartQtyOf (addAll cart calls) k = cartQtyOf cart k + callsQty calls k := by
  induction calls with
  | nil => intro cart k; simp [addAll, callsQty]
  | cons c cs ih =>
    intro cart k
    have hstep : addAll cart (c :: cs)
        = addAll (add_item_to_cart cart c.product c.variant c.qty) cs := rfl
    rw [hstep, ih, callsQty_cons]
    have : cartQtyOf (add_item_to_cart cart c.product c.variant c.qty) k
        = cartQtyOf cart k + (if c.targetKey == k then c.qty else 0) :=
      cartQtyOf_addQty _ cart k
    rw [this]
    omega

theorem addAll_qty_pos (calls : List AddCall) :
    ∀ cart : List CartItem, (∀ it ∈ cart, 1 ≤ it.qty) → (∀ c ∈ calls, 1 ≤ c.qty) →
      ∀ it ∈ addAll cart calls, 1 ≤ it.qty := by
  induction calls with
  | nil =>
    intro cart hcart _ it hit
    exact hcart it (by simpa [addAll] using hit)
  | cons c cs ih =>
    intro cart hcart hcalls it hit
    have hstep : addAll cart (c :: cs)
        = addAll (add_item_to_cart cart c.product c.variant c.qty) cs := rfl
    rw [hstep] at hit
    exact ih (add_item_to_cart cart c.product c.variant c.qty)
      (addQty_qty_pos _ cart hcart (hcalls c (by simp)))
      (fun x hx => hcalls x (by simp [hx])) it hit

theorem filter_eq_singleton_of_countP_one {α : Type} (p : α → Bool) (l : List α)
    (a : α) (hc : l.countP p = 1) (ha : a ∈ l) (hpa : p a = true) :
    l.filter p = [a] := by
  induction l with
  | nil => simp at ha
  | cons b t ih =>
    by_cases hb : p b = true
    · have ht : t.countP p = 0 := by
        rw [List.countP_cons, hb] at hc
        simpa using hc
      have hft : t.filter p = [] :=
        List.filter_eq_nil.2 (List.countP_eq_zero.1 ht)
      rcases List.mem_cons.1 ha with rfl | hat
      · simp [List.filter_cons, hb, hft]
      · exact absurd hpa (List.countP_eq_zero.1 ht a hat)
    · rcases List.mem_cons.1 ha with rfl | hat
      · exact absurd hpa hb
      · have ht : t.countP p = 1 := by
          rw [List.countP_cons] at hc
          simp [hb] at hc
          exact hc
        simp [List.filter_cons, hb, ih ht hat]

/-- C4: replaying any sequence of `add_item_to_cart` calls with quantities
at least 1 on the empty cart yields a cart with exactly one item per
distinct key that some call targeted (and none for other keys), where each
item's quantity equals the sum of the `qty` arguments of the calls
targeting its key — in particular every quantity is at least 1 and never
0. -/
theorem cart_add_invariant (calls : List AddCall) (hq : ∀ c ∈ calls, 1 ≤ c.qty) :
    (∀ k, countKey (addAll [] calls) k = if callsHaveKey calls k then 1 else 0)
    ∧ (∀ k, cartQtyOf (addAll [] calls) k = callsQty calls k)
    ∧ (∀ it ∈ addAll [] calls, it.qty = callsQty calls it.key ∧ 1 ≤ it.qty) := by
  have hcount : ∀ k, countKey (addAll [] calls) k
      = if callsHaveKey calls k then 1 else 0 := by
    intro k
    have h := countKey_addAll calls [] k
    simpa [countKey] using h
  have hqty : ∀ k, cartQtyOf (addAll [] calls) k = callsQty calls k := by
    intro k
    have h := cartQtyOf_addAll calls [] k
    simpa [cartQtyOf] using h
  have hpos : ∀ it ∈ addAll [] calls, 1 ≤ it.qty :=
    addAll_qty_pos calls [] (by simp) hq
  refine ⟨hcount, hqty, ?_⟩
  intro it hit
  refine ⟨?_, hpos it hit⟩
  have hk1 : countKey (addAll [] calls) it.key = 1 := by
    have hpos' : 0 < countKey (addAll [] calls) it.key := by
      rw [countKey, List.countP_pos]
      exact ⟨it, hit, by simp⟩
    rw [hcount it.key] at hpos' ⊢
    rcases h : callsHaveKey calls it.key with _ | _ <;> rw [h] at hpos' <;> simpa using hpos'
  have hfil : (addAll [] calls).filter (fun x => x.key == it.key) = [it] :=
    filter_eq_singleton_of_countP_one _ _ it (by simpa [countKey] using hk1) hit (by simp)
  have h := hqty it.key
  rw [cartQtyOf, hfil] at h
  simpa using h

theorem cart_add_invariant_witness :
    countKey (addAll [] callsEx) "1::" = 1
    ∧ cartQtyOf (addAll [] callsEx) "1::" = 2 := by
  have h := cart_add_invariant callsEx (by decide)
  exact ⟨(h.1 "1::").trans (by decide), (h.2.1 "1::").trans (by decide)⟩

end WebAppTelegram
